import Mathlib

/-!
Verification of the storage access layer of the scientific-literature
repository (src/database/db_manager.py, src/src/config.py), as a shallow
embedding in Lean 4.

The repository is a scaffold: many method bodies in db_manager.py are
TODO placeholders (the body is a pass statement).  Where real code decides a
claim (the Settings validation in config.py, the directory creation in
DatabaseManager, the expected-table constant), the embedding below follows
that code line by line.  Where only the declaration, docstring and TODO
hints of an operation are present in the source, the operation is modelled
from the specification; every such definition carries a doc comment starting
with the words Modelled from the spec.
-/

namespace SLI

/- ----------------------------------------------------------------------
Part 1: src/src/config.py (real code).
---------------------------------------------------------------------- -/

/-- Embeds SecuritySettings (src/src/config.py lines 119-138), keeping the
field read by the production validation; the remaining fields are
configuration values the validation never consults. -/
structure SecuritySettings where
  secret_key : String := "dev-secret-key-change-in-production"
deriving Repr, DecidableEq

/-- Embeds the fields of Settings (src/src/config.py lines 176-200) that
model_post_init reads: environment, debug and the security subsection. -/
structure Settings where
  environment : String := "development"
  debug : Bool := false
  security : SecuritySettings := {}
deriving Repr, DecidableEq

/-- Python str.lower, modelled characterwise (ASCII case folding). -/
def strLower (s : String) : String := ⟨s.data.map Char.toLower⟩

/-- Embeds the is_production property (config.py lines 207-210):
self.environment.lower() in ("production", "prod"). -/
def Settings.is_production (s : Settings) : Bool :=
  strLower s.environment == "production" || strLower s.environment == "prod"

/-- Embeds Settings.model_post_init (config.py lines 212-220): in production,
raise ValueError if the secret key is still the development default, then
raise ValueError if debug is set.  Raising is modelled as Except.error. -/
def Settings.model_post_init (s : Settings) : Except String Unit :=
  if s.is_production then
    if s.security.secret_key == "dev-secret-key-change-in-production" then
      .error "SECRET_KEY must be changed in production"
    else if s.debug then
      .error "DEBUG must be False in production"
    else
      .ok ()
  else
    .ok ()

/-- True on Except.ok, false on Except.error. -/
def isOk {ε α : Type} : Except ε α → Bool
  | .ok _ => true
  | .error _ => false

/-- Constructing a Settings value: pydantic builds the record and then runs
model_post_init, so construction fails exactly when model_post_init raises. -/
def mkSettings (environment : String) (debug : Bool)
    (security : SecuritySettings) : Except String Settings :=
  let s : Settings :=
    { environment := environment, debug := debug, security := security }
  match s.model_post_init with
  | .ok _ => .ok s
  | .error e => .error e

/- ----------------------------------------------------------------------
Part 2: filesystem model and the DatabaseManager constructor
(src/database/db_manager.py lines 35-92; the mkdir on line 67 is real code).
---------------------------------------------------------------------- -/

/-- A filesystem path as its list of components (the source uses
pathlib.Path). -/
abbrev FPath := List String

/-- pathlib parent: the path without its final component. -/
def FPath.parent (p : FPath) : FPath := p.dropLast

/-- The mutable world the constructor touches: the set of directories that
exist, as a list of paths. -/
structure World where
  dirs : List FPath
deriving Repr, DecidableEq

/-- Insert an element if absent: the shared model both of mkdir with
exist_ok=True (creating an existing directory changes nothing) and of
CREATE ... IF NOT EXISTS (creating an existing table or index changes
nothing). -/
def addNew {α : Type} [DecidableEq α] (xs : List α) (x : α) : List α :=
  if x ∈ xs then xs else xs ++ [x]

/-- pathlib.Path.mkdir with parents=True, exist_ok=True: create the path and
every missing ancestor; never fails. -/
def World.mkdirP (w : World) (p : FPath) : World :=
  ⟨p.inits.foldl addNew w.dirs⟩

/-- Embeds the DatabaseManager attributes set by the constructor
(db_manager.py lines 47-55): db_path, enable_wal, _connection = None,
logger = None (logger setup is a TODO placeholder). -/
structure DatabaseManager where
  db_path : FPath
  enable_wal : Bool
  _connection : Option Unit
  logger : Option Unit
deriving Repr, DecidableEq

/-- Embeds DatabaseManager._initialize_database (db_manager.py lines 60-92)
as the source stands: line 67 creates the parent directory with parents=True,
exist_ok=True (real code); the WAL step, the pragma step and the
schema-execution step (lines 70-92) are TODO placeholders whose bodies are
pass statements, so they have no effect on the world. -/
def DatabaseManager.init_database (m : DatabaseManager) (w : World) : World :=
  w.mkdirP m.db_path.parent

/-- Embeds DatabaseManager.__init__ (db_manager.py lines 35-58): store the
path and WAL flag, set _connection and logger to None, then call
_initialize_database before returning. -/
def DatabaseManager.construct (db_path : FPath) (enable_wal : Bool)
    (w : World) : DatabaseManager × World :=
  let m : DatabaseManager :=
    { db_path := db_path, enable_wal := enable_wal,
      _connection := none, logger := none }
  (m, m.init_database w)

/- ----------------------------------------------------------------------
Part 3: connection pool, scoped connections and scoped transactions.
The ConnectionPool bodies (db_manager.py lines 324-355) and the connection
creation, BEGIN, COMMIT and ROLLBACK steps of get_connection and
get_transaction (lines 94-168) are TODO placeholders in the source, so
these operations are modelled from the spec (sections 3, 4.1, 4.2, 7, 8).
---------------------------------------------------------------------- -/

/-- A row written to the store: target table and payload. -/
structure Row where
  table : String
  payload : String
deriving Repr, DecidableEq

/-- Modelled from the spec: the durable state of the single-file store —
the committed content, which readers observe (get_transaction commit and
rollback are TODO placeholders; spec sections 3 and 8). -/
structure Store where
  committed : List Row
deriving Repr, DecidableEq

/-- Modelled from the spec: a fresh connection opened after a scope reads
exactly the committed state (commit visibility, spec section 8). -/
def Store.readAll (s : Store) : List Row := s.committed

/-- The pool error taxonomy of spec section 7. -/
inductive PoolError where
  | PoolExhausted
  | PoolClosed
deriving Repr, DecidableEq

/-- The message a pool error carries when re-raised through a scope. -/
def PoolError.msg : PoolError → String
  | .PoolExhausted => "PoolExhausted"
  | .PoolClosed => "PoolClosed"

/-- Modelled from the spec: ConnectionPool state (the pool bodies at
db_manager.py lines 324-355 are TODO placeholders): a fixed pool_size, the
idle slot ids, the checked-out slot ids, and whether close_all ran. -/
structure ConnectionPool where
  db_path : String
  pool_size : Nat
  idle : List Nat
  checkedOut : List Nat
  closed : Bool
deriving Repr, DecidableEq

/-- Modelled from the spec: pool construction pre-creates pool_size
connections, all idle (spec section 3: Connections are created at pool
construction). -/
def ConnectionPool.mkPool (db_path : String) (pool_size : Nat) :
    ConnectionPool :=
  { db_path := db_path, pool_size := pool_size,
    idle := List.range pool_size, checkedOut := [], closed := false }

/-- Modelled from the spec: acquire waits up to the configured timeout for an
idle slot (real time is abstracted away); with an idle slot available it
marks the slot checked-out and returns it; with no idle slot by the timeout
it fails with PoolExhausted; after close_all it fails with PoolClosed. -/
def ConnectionPool.acquire (p : ConnectionPool) :
    Except PoolError (Nat × ConnectionPool) :=
  if p.closed then .error .PoolClosed
  else
    match p.idle with
    | [] => .error .PoolExhausted
    | c :: rest =>
        .ok (c, { p with idle := rest, checkedOut := c :: p.checkedOut })

/-- Modelled from the spec: release returns a checked-out connection to the
idle state; releasing a slot that is not checked out changes nothing. -/
def ConnectionPool.release (p : ConnectionPool) (c : Nat) : ConnectionPool :=
  if c ∈ p.checkedOut then
    { p with idle := c :: p.idle, checkedOut := p.checkedOut.erase c }
  else p

/-- A pool client action: an acquire attempt or a release of a slot. -/
inductive PoolOp where
  | acq
  | rel (c : Nat)
deriving Repr, DecidableEq

/-- Run one client action against the pool; a failing acquire leaves the
pool unchanged. -/
def ConnectionPool.step (p : ConnectionPool) (op : PoolOp) : ConnectionPool :=
  match op with
  | .acq =>
      match p.acquire with
      | .ok (_, p1) => p1
      | .error _ => p
  | .rel c => p.release c

/-- An event in the connection lifecycle trace (spec section 4.4 state
machine: idle, begun, committed or rolled back, idle). -/
inductive Event where
  | acquired (c : Nat)
  | began (c : Nat)
  | committedTxn (c : Nat)
  | rolledBack (c : Nat)
  | released (c : Nat)
deriving Repr, DecidableEq

/-- How many times the trace releases slot c. -/
def countRelease (tr : List Event) (c : Nat) : Nat :=
  tr.countP fun e =>
    match e with
    | .released d => d == c
    | _ => false

/-- The trace rolls slot c back strictly before releasing it. -/
def rollbackBeforeRelease (tr : List Event) (c : Nat) : Prop :=
  ∃ i j, i < j ∧ tr.get? i = some (.rolledBack c) ∧
    tr.get? j = some (.released c)

/-- Modelled from the spec: the caller-supplied operation run inside a
connection scope, abstracted by its observable outcome: whether it leaves a
transaction open on the yielded connection, and whether it returns normally
(ok; early return is the same exit path) or raises (error e). -/
structure ConnOp where
  opensTxn : Bool
  outcome : Except String Unit
deriving Repr

/-- Modelled from the spec: with_connection / get_connection (db_manager.py
lines 94-130, whose connection creation and logging steps are TODO
placeholders): acquire a connection from the pool, run the caller operation,
and release the connection on every exit path; on an error, roll back any
transaction the operation left open before the release, then re-raise the
error.  Returns the result, the final pool, and the lifecycle trace. -/
def with_connection (p : ConnectionPool) (op : ConnOp) :
    Except String Unit × ConnectionPool × List Event :=
  match p.acquire with
  | .error e => (.error e.msg, p, [])
  | .ok (c, p1) =>
      match op.outcome with
      | .ok _ => (.ok (), p1.release c, [.acquired c, .released c])
      | .error e =>
          (.error e, p1.release c,
            [.acquired c] ++
              (if op.opensTxn then [.rolledBack c] else []) ++ [.released c])

/-- Modelled from the spec: the caller-supplied operation run inside a
transaction scope, abstracted by the writes it performs on the yielded
connection and whether it then returns normally or raises (error e). -/
structure TxnOp where
  writes : List Row
  outcome : Except String Unit
deriving Repr

/-- Modelled from the spec: with_transaction / get_transaction
(db_manager.py lines 132-168, whose BEGIN, COMMIT and ROLLBACK steps are
TODO placeholders): obtain a scoped connection, issue BEGIN, run the caller
operation so that its writes are pending on the connection, and on normal
return issue COMMIT, appending the pending writes to the committed state;
on an error issue ROLLBACK, discarding the pending writes and leaving the
committed state untouched, then release and re-raise.  Returns the result,
the final pool, the final store and the lifecycle trace. -/
def with_transaction (p : ConnectionPool) (s : Store) (op : TxnOp) :
    Except String Unit × ConnectionPool × Store × List Event :=
  match p.acquire with
  | .error e => (.error e.msg, p, s, [])
  | .ok (c, p1) =>
      match op.outcome with
      | .ok _ =>
          (.ok (), p1.release c, ⟨s.committed ++ op.writes⟩,
            [.acquired c, .began c, .committedTxn c, .released c])
      | .error e =>
          (.error e, p1.release c, s,
            [.acquired c, .began c, .rolledBack c, .released c])

/- ----------------------------------------------------------------------
Part 4: schema bootstrap and schema validation.
The expected-table list (db_manager.py lines 202-206) is real code; the
WAL, pragma and schema-execution steps of _initialize_database (lines
69-92) and the validation checks of SchemaValidator.validate_schema (lines
208-224) are TODO placeholders modelled from the spec (sections 4.2, 4.3,
6, 8).
---------------------------------------------------------------------- -/

/-- Embeds the expected_tables constant (db_manager.py lines 202-206). -/
def expected_tables : List String :=
  ["authors", "papers", "datasets", "paper_authors",
   "citations", "paper_datasets", "research_trends",
   "collaboration_networks"]

/-- The full-text-search artifact over paper text (db_manager.py line 221
names papers_fts). -/
def ftsTable : String := "papers_fts"

/-- Modelled from the spec (section 3, SchemaDescriptor): the expected set
of tables and indexes; the expected FTS artifact is ftsTable. -/
structure SchemaDescriptor where
  tables : List String
  indexes : List String
deriving Repr, DecidableEq

/-- The live schema catalog (what the sqlite_master table lists). -/
structure Catalog where
  tables : List String
  indexes : List String
deriving Repr, DecidableEq

/-- DROP TABLE t against the live catalog. -/
def Catalog.dropTable (cat : Catalog) (t : String) : Catalog :=
  { cat with tables := cat.tables.erase t }

/-- Modelled from the spec (section 6): the idempotent schema script creates
every expected table and index plus the FTS artifact, with CREATE ... IF
NOT EXISTS semantics. -/
def runSchemaScript (d : SchemaDescriptor) (cat : Catalog) : Catalog :=
  { tables := addNew (d.tables.foldl addNew cat.tables) ftsTable,
    indexes := d.indexes.foldl addNew cat.indexes }

/-- The pragma state the bootstrap configures (spec section 4.2). -/
structure DBConfig where
  journal_mode : String
  foreign_keys : Bool
  synchronous : String
  cache_size : Int
deriving Repr, DecidableEq

/-- The bounded page-cache size the bootstrap sets (kibibytes, negative per
the sqlite cache_size convention; the exact bound is configuration). -/
def cacheSizeBound : Int := -64000

/-- The database-side state the bootstrap touches. -/
structure DBState where
  config : DBConfig
  catalog : Catalog
deriving Repr, DecidableEq

/-- Modelled from the spec: initialize() / _initialize_database with the
TODO placeholder steps (db_manager.py lines 69-92) filled from spec section
4.2: create the parent directory if absent, enable WAL mode when the
constructor requested it, set foreign-key enforcement on, synchronous
NORMAL and the bounded page cache, then run the idempotent schema
script. -/
def bootstrapSpec (m : DatabaseManager) (d : SchemaDescriptor) (w : World)
    (db : DBState) : World × DBState :=
  (w.mkdirP m.db_path.parent,
   { config :=
       { journal_mode :=
           if m.enable_wal then "wal" else db.config.journal_mode,
         foreign_keys := true,
         synchronous := "NORMAL",
         cache_size := cacheSizeBound },
     catalog := runSchemaScript d db.catalog })

/-- The validation report (db_manager.py lines 189-195: keys valid, issues,
table_count, index_count, fts_enabled). -/
structure ValidationReport where
  valid : Bool
  issues : List String
  table_count : Nat
  index_count : Nat
  fts_enabled : Bool
deriving Repr, DecidableEq

/-- Modelled from the spec: SchemaValidator.validate_schema (the table,
index and FTS checks at db_manager.py lines 208-224 are TODO placeholders):
enumerate the live catalog, compare it against the expected tables and
indexes and the FTS artifact, and report valid exactly when no issue was
found; table_count and index_count describe the live catalog. -/
def validate_schema (d : SchemaDescriptor) (cat : Catalog) :
    ValidationReport :=
  let missingTables := d.tables.filter fun t => !(decide (t ∈ cat.tables))
  let missingIndexes := d.indexes.filter fun i => !(decide (i ∈ cat.indexes))
  let fts : Bool := decide (ftsTable ∈ cat.tables)
  let issues :=
    missingTables.map (fun t => "Missing table: " ++ t) ++
      missingIndexes.map (fun i => "Missing index: " ++ i) ++
      (if fts then [] else ["Missing FTS table: " ++ ftsTable])
  { valid := issues.isEmpty,
    issues := issues,
    table_count := cat.tables.length,
    index_count := cat.indexes.length,
    fts_enabled := fts }

/- ----------------------------------------------------------------------
Part 5: query performance monitoring.
QueryPerformanceMonitor.__init__ (db_manager.py lines 259-261) is real
code (query_stats starts empty); the plan inspection, execution, stats
update and failure logging of execute_with_monitoring (lines 263-303) are
TODO placeholders modelled from the spec (sections 4.4 and 7).
---------------------------------------------------------------------- -/

/-- A bound query parameter, with the shape logging may record. -/
inductive Param where
  | intP (n : Int)
  | textP (s : String)
deriving Repr, DecidableEq

/-- The shape of a parameter: its type tag, never its raw value. -/
def Param.shape : Param → String
  | .intP _ => "int"
  | .textP _ => "text"

/-- Modelled from the spec (glossary): the fingerprint of a query is its
normalized text with parameter values stripped; since parameter binding is
mandatory, the bound query text is already that normal form, so the
fingerprint is the query text and never depends on parameter values. -/
def fingerprint (query : String) : String := query

/-- Per-fingerprint aggregate (spec section 3, QueryStat). -/
structure QueryStat where
  count : Nat
  total_time : Nat
deriving Repr, DecidableEq

/-- Embeds QueryPerformanceMonitor.__init__ (db_manager.py lines 259-261):
query_stats starts empty; kept as an association list keyed by
fingerprint. -/
structure QueryPerformanceMonitor where
  query_stats : List (String × QueryStat)
deriving Repr, DecidableEq

/-- A freshly constructed monitor. -/
def emptyMonitor : QueryPerformanceMonitor := ⟨[]⟩

/-- A log record of a failed execution: query text, parameter shapes and
error kind. -/
structure FailureLog where
  query : String
  param_shapes : List String
  error_kind : String
deriving Repr, DecidableEq

/-- QueryExecutionError (spec section 7): wraps the underlying store error
together with the query fingerprint. -/
structure QueryExecutionError where
  fingerprint : String
  cause : String
deriving Repr, DecidableEq

/-- Bump the QueryStat bucket of a fingerprint by one execution of duration
dt, inserting the bucket on first sight. -/
def bumpStat (stats : List (String × QueryStat)) (fp : String) (dt : Nat) :
    List (String × QueryStat) :=
  match stats with
  | [] => [(fp, { count := 1, total_time := dt })]
  | (k, st) :: rest =>
      if k = fp then
        (k, { count := st.count + 1, total_time := st.total_time + dt }) :: rest
      else
        (k, st) :: bumpStat rest fp dt

/-- Modelled from the spec: execute_with_monitoring (db_manager.py lines
263-303, whose plan inspection, execution, stats update and failure logging
are TODO placeholders): execute the query with bound parameters against the
store through the abstract executor, with dt the measured wall-clock
duration; on success update the QueryStat keyed by the fingerprint of the
query text and return the rows; on failure log the query text, the
parameter shapes and the error kind, and re-raise the error wrapped in
QueryExecutionError — never a default or empty result.  Returns the
result, the updated monitor and the failure-log entries. -/
def execute_with_monitoring
    (exec : String → List Param → Store → Except String (List Row))
    (mon : QueryPerformanceMonitor) (query : String) (params : List Param)
    (s : Store) (dt : Nat) :
    Except QueryExecutionError (List Row) × QueryPerformanceMonitor ×
      List FailureLog :=
  match exec query params s with
  | .ok rows =>
      (.ok rows, ⟨bumpStat mon.query_stats (fingerprint query) dt⟩, [])
  | .error e =>
      (.error ⟨fingerprint query, e⟩, mon,
        [⟨query, params.map Param.shape, e⟩])

/- Helper lemmas about addNew and mkdirP. -/

theorem mem_addNew_of_mem {α : Type} [DecidableEq α] {ds : List α} {a q : α}
    (h : a ∈ ds) : a ∈ addNew ds q := by
  unfold addNew
  split
  · exact h
  · exact List.mem_append_left _ h

theorem self_mem_addNew {α : Type} [DecidableEq α] (ds : List α) (q : α) :
    q ∈ addNew ds q := by
  unfold addNew
  split
  · assumption
  · exact List.mem_append_right _ (List.mem_singleton.mpr rfl)

theorem mem_foldl_addNew_of_mem {α : Type} [DecidableEq α] {l ds : List α}
    {a : α} (h : a ∈ ds) : a ∈ l.foldl addNew ds := by
  induction l generalizing ds with
  | nil => simpa using h
  | cons q t ih => exact ih (mem_addNew_of_mem h)

theorem mem_foldl_addNew_of_mem_list {α : Type} [DecidableEq α] {l ds : List α}
    {q : α} (h : q ∈ l) : q ∈ l.foldl addNew ds := by
  induction l generalizing ds with
  | nil => cases h
  | cons x t ih =>
      rcases List.mem_cons.mp h with h1 | h1
      · subst h1
        rw [List.foldl_cons]
        exact mem_foldl_addNew_of_mem (self_mem_addNew ds _)
      · exact ih h1

theorem foldl_addNew_noop {α : Type} [DecidableEq α] {l ds : List α}
    (h : ∀ q ∈ l, q ∈ ds) : l.foldl addNew ds = ds := by
  induction l with
  | nil => rfl
  | cons x t ih =>
      have hx : addNew ds x = ds := by
        unfold addNew
        simp [h x (List.mem_cons_self x t)]
      rw [List.foldl_cons, hx]
      exact ih fun q hq => h q (List.mem_cons_of_mem _ hq)

end SLI

namespace SLI

/-- Settings construction succeeds exactly when the production guard of
model_post_init does not fire. -/
theorem mkSettings_isOk (env key : String) (dbg : Bool) :
    isOk (mkSettings env dbg { secret_key := key }) =
      !((strLower env == "production" || strLower env == "prod") &&
        ((key == "dev-secret-key-change-in-production") || dbg)) := by
  cases h1 : strLower env == "production" <;>
    cases h2 : strLower env == "prod" <;>
      cases h3 : key == "dev-secret-key-change-in-production" <;>
        cases dbg <;>
          simp [mkSettings, Settings.model_post_init, Settings.is_production,
            isOk, h1, h2, h3]

/-- C9: constructing a Settings value whose environment is production or prod
(case-insensitive) fails when the secret key still equals the development
default or debug is true; for any non-production environment construction
succeeds regardless of those two fields. -/
theorem C9_production_settings_validation (env key : String) (dbg : Bool) :
    ((strLower env = "production" ∨ strLower env = "prod") →
      (key = "dev-secret-key-change-in-production" ∨ dbg = true) →
      isOk (mkSettings env dbg { secret_key := key }) = false) ∧
    ((strLower env ≠ "production" ∧ strLower env ≠ "prod") →
      isOk (mkSettings env dbg { secret_key := key }) = true) := by
  have h := mkSettings_isOk env key dbg
  constructor
  · intro hprod hbad
    have h1 : (strLower env == "production" || strLower env == "prod") = true := by
      rcases hprod with hp | hp <;> simp [hp]
    have h2 : ((key == "dev-secret-key-change-in-production") || dbg) = true := by
      rcases hbad with hk | hk <;> simp [hk]
    rw [h, h1, h2]
    rfl
  · intro hnp
    have h1 : (strLower env == "production") = false := by simp [hnp.1]
    have h2 : (strLower env == "prod") = false := by simp [hnp.2]
    rw [h, h1, h2]
    rfl

/-- Witness for C9: with the default development secret key, construction in
the production environment fails and construction in the development
environment (even with debug set) succeeds. -/
theorem C9_production_settings_validation_witness :
    isOk (mkSettings "production" false
      { secret_key := "dev-secret-key-change-in-production" }) = false ∧
    isOk (mkSettings "development" true
      { secret_key := "dev-secret-key-change-in-production" }) = true := by
  constructor
  · exact (C9_production_settings_validation "production"
      "dev-secret-key-change-in-production" false).1
      (Or.inl (by decide)) (Or.inl rfl)
  · exact (C9_production_settings_validation "development"
      "dev-secret-key-change-in-production" true).2
      ⟨by decide, by decide⟩

/-- C10: constructing a DatabaseManager runs database initialization itself:
the parent directory of db_path, with every missing ancestor, exists in the
world the constructor returns, pre-existing directories are preserved, and
when the parent directory (with its ancestors) already exists construction
succeeds and leaves the world unchanged. -/
theorem C10_constructor_creates_parent_directory
    (w : World) (db_path : FPath) (enable_wal : Bool) :
    ((DatabaseManager.construct db_path enable_wal w).1.db_path = db_path) ∧
    (db_path.parent ∈ (DatabaseManager.construct db_path enable_wal w).2.dirs) ∧
    (∀ q ∈ db_path.parent.inits,
      q ∈ (DatabaseManager.construct db_path enable_wal w).2.dirs) ∧
    (∀ d ∈ w.dirs, d ∈ (DatabaseManager.construct db_path enable_wal w).2.dirs) ∧
    ((∀ q ∈ db_path.parent.inits, q ∈ w.dirs) →
      (DatabaseManager.construct db_path enable_wal w).2 = w) := by
  refine ⟨rfl, ?_, ?_, ?_, ?_⟩
  · exact mem_foldl_addNew_of_mem_list ((List.mem_inits _ _).2 (List.prefix_refl _))
  · exact fun q hq => mem_foldl_addNew_of_mem_list hq
  · exact fun d hd => mem_foldl_addNew_of_mem hd
  · intro h
    show World.mk _ = w
    rw [foldl_addNew_noop h]

/-- Witness for C10 at a concrete world and path: the data directory and its
ancestor are created, and a second construction on the resulting world is a
no-op. -/
theorem C10_constructor_creates_parent_directory_witness :
    FPath.parent ["data", "scientific_literature.db"] ∈
      (DatabaseManager.construct ["data", "scientific_literature.db"] true
        ⟨[]⟩).2.dirs ∧
    ((∀ q ∈ (FPath.parent ["data", "scientific_literature.db"]).inits,
        q ∈ (⟨[[], ["data"]]⟩ : World).dirs) →
      (DatabaseManager.construct ["data", "scientific_literature.db"] true
        ⟨[[], ["data"]]⟩).2 = ⟨[[], ["data"]]⟩) := by
  refine ⟨?_, ?_⟩
  · exact (C10_constructor_creates_parent_directory ⟨[]⟩
      ["data", "scientific_literature.db"] true).2.1
  · exact (C10_constructor_creates_parent_directory ⟨[[], ["data"]]⟩
      ["data", "scientific_literature.db"] true).2.2.2.2

/- Pool-invariant helper lemmas. -/

theorem step_load_le (p : ConnectionPool) (op : PoolOp) :
    (p.step op).idle.length + (p.step op).checkedOut.length ≤
      p.idle.length + p.checkedOut.length := by
  cases op with
  | acq =>
      by_cases hc : p.closed
      · simp [ConnectionPool.step, ConnectionPool.acquire, hc]
      · cases hi : p.idle with
        | nil => simp [ConnectionPool.step, ConnectionPool.acquire, hc, hi]
        | cons c rest =>
            simp [ConnectionPool.step, ConnectionPool.acquire, hc, hi]
            omega
  | rel c =>
      by_cases hm : c ∈ p.checkedOut
      · have h1 : (p.checkedOut.erase c).length = p.checkedOut.length - 1 :=
          List.length_erase_of_mem hm
        have h2 : 0 < p.checkedOut.length := List.length_pos_of_mem hm
        simp [ConnectionPool.step, ConnectionPool.release, hm, h1]
        omega
      · simp [ConnectionPool.step, ConnectionPool.release, hm]

theorem foldl_step_load_le (ops : List PoolOp) (p : ConnectionPool) :
    (ops.foldl ConnectionPool.step p).idle.length +
      (ops.foldl ConnectionPool.step p).checkedOut.length ≤
      p.idle.length + p.checkedOut.length := by
  induction ops generalizing p with
  | nil => exact Nat.le_refl _
  | cons op t ih =>
      rw [List.foldl_cons]
      exact (ih (p.step op)).trans (step_load_le p op)

/-- C3: starting from a pool of size N, no sequence of acquire and release
actions ever leaves more than N connections checked out, and an acquire on a
live pool with no idle slot fails with PoolExhausted (after the abstracted
bounded wait) instead of returning a connection. -/
theorem C3_pool_bound_and_exhaustion (db_path : String) (N : Nat)
    (_hN : 1 ≤ N) (ops : List PoolOp) :
    ((ops.foldl ConnectionPool.step
        (ConnectionPool.mkPool db_path N)).checkedOut.length ≤ N) ∧
    (∀ p : ConnectionPool, p.closed = false → p.idle = [] →
      p.acquire = .error .PoolExhausted) := by
  constructor
  · have h := foldl_step_load_le ops (ConnectionPool.mkPool db_path N)
    have h2 : (ConnectionPool.mkPool db_path N).idle.length +
        (ConnectionPool.mkPool db_path N).checkedOut.length = N := by
      simp [ConnectionPool.mkPool]
    omega
  · intro p h1 h2
    simp [ConnectionPool.acquire, h1, h2]

/-- Witness for C3: a pool of size one, after two acquire attempts, has at
most one connection checked out, and a fully checked-out live pool fails its
next acquire with PoolExhausted. -/
theorem C3_pool_bound_and_exhaustion_witness :
    (([PoolOp.acq, PoolOp.acq].foldl ConnectionPool.step
        (ConnectionPool.mkPool "lit.db" 1)).checkedOut.length ≤ 1) ∧
    (ConnectionPool.acquire ⟨"lit.db", 1, [], [0], false⟩ =
      .error .PoolExhausted) := by
  refine ⟨(C3_pool_bound_and_exhaustion "lit.db" 1 (by decide)
    [PoolOp.acq, PoolOp.acq]).1, ?_⟩
  exact (C3_pool_bound_and_exhaustion "lit.db" 1 (by decide) []).2
    ⟨"lit.db", 1, [], [0], false⟩ rfl rfl

/-- C1: inside a transaction scope whose connection was acquired, BEGIN is
issued right after acquisition and before the operation runs; when the
operation returns normally the scope commits and succeeds; when the
operation raises, the scope rolls back, re-raises the same error, and the
committed store state is exactly what it was before the transaction. -/
theorem C1_transaction_rollback_and_commit (p : ConnectionPool) (s : Store)
    (op : TxnOp) (c : Nat) (rest : List Nat) (hclosed : p.closed = false)
    (hidle : p.idle = c :: rest) :
    ((with_transaction p s op).2.2.2.take 2 = [.acquired c, .began c]) ∧
    (∀ u, op.outcome = .ok u →
      (with_transaction p s op).1 = .ok () ∧
      Event.committedTxn c ∈ (with_transaction p s op).2.2.2) ∧
    (∀ e, op.outcome = .error e →
      (with_transaction p s op).1 = .error e ∧
      Event.rolledBack c ∈ (with_transaction p s op).2.2.2 ∧
      (with_transaction p s op).2.2.1 = s) := by
  cases ho : op.outcome with
  | ok u =>
      refine ⟨?_, ?_, ?_⟩ <;>
        simp [with_transaction, ConnectionPool.acquire, hclosed, hidle, ho]
  | error e =>
      refine ⟨?_, ?_, ?_⟩ <;>
        simp [with_transaction, ConnectionPool.acquire, hclosed, hidle, ho]

/-- Witness for C1: on a one-slot pool, a failing insert of one row leaves
the store empty and re-raises, and a successful scope commits. -/
theorem C1_transaction_rollback_and_commit_witness :
    ((with_transaction (ConnectionPool.mkPool "lit.db" 1) ⟨[]⟩
        ⟨[⟨"authors", "ada"⟩], .error "boom"⟩).1 = .error "boom" ∧
      Event.rolledBack 0 ∈
        (with_transaction (ConnectionPool.mkPool "lit.db" 1) ⟨[]⟩
          ⟨[⟨"authors", "ada"⟩], .error "boom"⟩).2.2.2 ∧
      (with_transaction (ConnectionPool.mkPool "lit.db" 1) ⟨[]⟩
        ⟨[⟨"authors", "ada"⟩], .error "boom"⟩).2.2.1 = ⟨[]⟩) ∧
    ((with_transaction (ConnectionPool.mkPool "lit.db" 1) ⟨[]⟩
        ⟨[⟨"authors", "ada"⟩], .ok ()⟩).1 = .ok ()) := by
  constructor
  · exact (C1_transaction_rollback_and_commit (ConnectionPool.mkPool "lit.db" 1)
      ⟨[]⟩ ⟨[⟨"authors", "ada"⟩], .error "boom"⟩ 0 [] rfl rfl).2.2 "boom" rfl
  · exact ((C1_transaction_rollback_and_commit (ConnectionPool.mkPool "lit.db" 1)
      ⟨[]⟩ ⟨[⟨"authors", "ada"⟩], .ok ()⟩ 0 [] rfl rfl).2.1 () rfl).1

/-- C4: a transaction scope whose operation returns normally succeeds,
leaves the committed state equal to the prior state extended by exactly the
writes of the operation, and every one of those writes is observed by a
fresh connection reading afterwards. -/
theorem C4_commit_visibility (p : ConnectionPool) (s : Store) (op : TxnOp)
    (c : Nat) (rest : List Nat) (u : Unit) (hclosed : p.closed = false)
    (hidle : p.idle = c :: rest) (hok : op.outcome = .ok u) :
    (with_transaction p s op).1 = .ok () ∧
    (with_transaction p s op).2.2.1.committed = s.committed ++ op.writes ∧
    (∀ row ∈ op.writes, row ∈ (with_transaction p s op).2.2.1.readAll) := by
  refine ⟨?_, ?_, ?_⟩ <;>
    simp [with_transaction, ConnectionPool.acquire, hclosed, hidle, hok,
      Store.readAll]
  intro row hr
  exact Or.inr hr

/-- Witness for C4: committing one author row on an empty store makes a
fresh read observe it. -/
theorem C4_commit_visibility_witness :
    (with_transaction (ConnectionPool.mkPool "lit.db" 1) ⟨[]⟩
      ⟨[⟨"authors", "ada"⟩], .ok ()⟩).1 = .ok () ∧
    (with_transaction (ConnectionPool.mkPool "lit.db" 1) ⟨[]⟩
      ⟨[⟨"authors", "ada"⟩], .ok ()⟩).2.2.1.committed =
        [] ++ [⟨"authors", "ada"⟩] ∧
    (∀ row ∈ ([⟨"authors", "ada"⟩] : List Row),
      row ∈ (with_transaction (ConnectionPool.mkPool "lit.db" 1) ⟨[]⟩
        ⟨[⟨"authors", "ada"⟩], .ok ()⟩).2.2.1.readAll) :=
  C4_commit_visibility (ConnectionPool.mkPool "lit.db" 1) ⟨[]⟩
    ⟨[⟨"authors", "ada"⟩], .ok ()⟩ 0 [] () rfl rfl rfl

/-- C2: a scoped connection or transaction whose connection was acquired
releases that connection exactly once on every exit path (the trace holds
one release, the slot ends idle and not checked out), and an operation that
raises has its error re-raised with any open transaction rolled back before
the release. -/
theorem C2_release_exactly_once (p : ConnectionPool) (cop : ConnOp)
    (top : TxnOp) (s : Store) (c : Nat) (rest : List Nat)
    (hclosed : p.closed = false) (hidle : p.idle = c :: rest)
    (hwf : c ∉ p.checkedOut) :
    (countRelease (with_connection p cop).2.2 c = 1) ∧
    (c ∈ (with_connection p cop).2.1.idle ∧
      c ∉ (with_connection p cop).2.1.checkedOut) ∧
    (∀ e, cop.outcome = .error e →
      (with_connection p cop).1 = .error e ∧
      (cop.opensTxn = true →
        rollbackBeforeRelease (with_connection p cop).2.2 c)) ∧
    (countRelease (with_transaction p s top).2.2.2 c = 1) ∧
    (c ∈ (with_transaction p s top).2.1.idle ∧
      c ∉ (with_transaction p s top).2.1.checkedOut) ∧
    (∀ e, top.outcome = .error e →
      (with_transaction p s top).1 = .error e ∧
      rollbackBeforeRelease (with_transaction p s top).2.2.2 c) := by
  refine ⟨?_, ?_, ?_, ?_, ?_, ?_⟩
  · cases ho : cop.outcome <;> cases ht : cop.opensTxn <;>
      simp [with_connection, ConnectionPool.acquire, ConnectionPool.release,
        countRelease, hclosed, hidle, ho, ht]
  · cases ho : cop.outcome <;>
      simp [with_connection, ConnectionPool.acquire, ConnectionPool.release,
        hclosed, hidle, ho, hwf]
  · intro e he
    cases ht : cop.opensTxn
    · refine ⟨?_, ?_⟩ <;>
        simp [with_connection, ConnectionPool.acquire, hclosed, hidle, he, ht]
    · constructor
      · simp [with_connection, ConnectionPool.acquire, hclosed, hidle, he, ht]
      · intro _
        refine ⟨1, 2, by omega, ?_, ?_⟩ <;>
          simp [with_connection, ConnectionPool.acquire, hclosed, hidle,
            he, ht]
  · cases ho : top.outcome <;>
      simp [with_transaction, ConnectionPool.acquire, ConnectionPool.release,
        countRelease, hclosed, hidle, ho]
  · cases ho : top.outcome <;>
      simp [with_transaction, ConnectionPool.acquire, ConnectionPool.release,
        hclosed, hidle, ho, hwf]
  · intro e he
    constructor
    · simp [with_transaction, ConnectionPool.acquire, hclosed, hidle, he]
    · refine ⟨2, 3, by omega, ?_, ?_⟩ <;>
        simp [with_transaction, ConnectionPool.acquire, hclosed, hidle, he]

/-- Witness for C2: on a one-slot pool, a raising operation that opened a
transaction has its connection rolled back, released exactly once, and the
error re-raised; the transaction scope behaves the same way. -/
theorem C2_release_exactly_once_witness :
    (countRelease (with_connection (ConnectionPool.mkPool "lit.db" 1)
        ⟨true, .error "boom"⟩).2.2 0 = 1) ∧
    ((with_connection (ConnectionPool.mkPool "lit.db" 1)
        ⟨true, .error "boom"⟩).1 = .error "boom" ∧
      (true = true → rollbackBeforeRelease
        (with_connection (ConnectionPool.mkPool "lit.db" 1)
          ⟨true, .error "boom"⟩).2.2 0)) ∧
    (countRelease (with_transaction (ConnectionPool.mkPool "lit.db" 1) ⟨[]⟩
        ⟨[], .error "boom"⟩).2.2.2 0 = 1) := by
  refine ⟨?_, ?_, ?_⟩
  · exact (C2_release_exactly_once (ConnectionPool.mkPool "lit.db" 1)
      ⟨true, .error "boom"⟩ ⟨[], .error "boom"⟩ ⟨[]⟩ 0 [] rfl rfl
      (by simp [ConnectionPool.mkPool])).1
  · exact (C2_release_exactly_once (ConnectionPool.mkPool "lit.db" 1)
      ⟨true, .error "boom"⟩ ⟨[], .error "boom"⟩ ⟨[]⟩ 0 [] rfl rfl
      (by simp [ConnectionPool.mkPool])).2.2.1 "boom" rfl
  · exact (C2_release_exactly_once (ConnectionPool.mkPool "lit.db" 1)
      ⟨true, .error "boom"⟩ ⟨[], .error "boom"⟩ ⟨[]⟩ 0 [] rfl rfl
      (by simp [ConnectionPool.mkPool])).2.2.2.1

/- Nodup and idempotence helper lemmas. -/

theorem addNew_of_mem {α : Type} [DecidableEq α] {xs : List α} {x : α}
    (h : x ∈ xs) : addNew xs x = xs := by
  simp [addNew, h]

theorem nodup_addNew {α : Type} [DecidableEq α] {ns : List α} (h : ns.Nodup)
    (n : α) : (addNew ns n).Nodup := by
  by_cases hm : n ∈ ns
  · simpa [addNew, hm] using h
  · simp [addNew, hm, List.nodup_append, h]

theorem nodup_foldl_addNew {α : Type} [DecidableEq α] (l : List α)
    {ns : List α} (h : ns.Nodup) : (l.foldl addNew ns).Nodup := by
  induction l generalizing ns with
  | nil => simpa using h
  | cons x t ih =>
      rw [List.foldl_cons]
      exact ih (nodup_addNew h x)

theorem mkdirP_idem (w : World) (p : FPath) :
    (w.mkdirP p).mkdirP p = w.mkdirP p := by
  unfold World.mkdirP
  exact congrArg World.mk
    (foldl_addNew_noop fun q hq => mem_foldl_addNew_of_mem_list hq)

theorem runSchemaScript_idem (d : SchemaDescriptor) (cat : Catalog) :
    runSchemaScript d (runSchemaScript d cat) = runSchemaScript d cat := by
  unfold runSchemaScript
  have ht : d.tables.foldl addNew
      (addNew (d.tables.foldl addNew cat.tables) ftsTable) =
      addNew (d.tables.foldl addNew cat.tables) ftsTable :=
    foldl_addNew_noop fun t htt =>
      mem_addNew_of_mem (mem_foldl_addNew_of_mem_list htt)
  have hi : d.indexes.foldl addNew (d.indexes.foldl addNew cat.indexes) =
      d.indexes.foldl addNew cat.indexes :=
    foldl_addNew_noop fun i hii => mem_foldl_addNew_of_mem_list hii
  simp only [ht, hi, addNew_of_mem (self_mem_addNew _ ftsTable)]

theorem isEmpty_false_of_mem {α : Type} {l : List α} {a : α} (h : a ∈ l) :
    l.isEmpty = false := by
  cases l with
  | nil => cases h
  | cons x t => rfl

/-- C8: the bootstrap is idempotent — running it a second time on the world
and database state it produced changes nothing — and its result has the
parent directory created, foreign-key enforcement on, synchronous NORMAL,
the bounded page cache, and WAL journaling whenever the constructor
requested WAL. -/
theorem C8_bootstrap_idempotent (m : DatabaseManager) (d : SchemaDescriptor)
    (w : World) (db : DBState) :
    (bootstrapSpec m d (bootstrapSpec m d w db).1 (bootstrapSpec m d w db).2 =
      bootstrapSpec m d w db) ∧
    ((bootstrapSpec m d w db).2.config.foreign_keys = true) ∧
    ((bootstrapSpec m d w db).2.config.synchronous = "NORMAL") ∧
    ((bootstrapSpec m d w db).2.config.cache_size = cacheSizeBound) ∧
    (m.enable_wal = true →
      (bootstrapSpec m d w db).2.config.journal_mode = "wal") ∧
    (m.db_path.parent ∈ (bootstrapSpec m d w db).1.dirs) := by
  refine ⟨?_, rfl, rfl, rfl, ?_, ?_⟩
  · cases hw : m.enable_wal <;>
      simp [bootstrapSpec, hw, mkdirP_idem, runSchemaScript_idem]
  · intro hw
    simp [bootstrapSpec, hw]
  · exact mem_foldl_addNew_of_mem_list ((List.mem_inits _ _).2 (List.prefix_refl _))

/-- Witness for C8: with WAL requested, the bootstrap on an empty world and
a blank database state reports WAL journaling, and a second run is a
no-op. -/
theorem C8_bootstrap_idempotent_witness :
    ((bootstrapSpec ⟨["data", "lit.db"], true, none, none⟩
        ⟨expected_tables, []⟩
        (bootstrapSpec ⟨["data", "lit.db"], true, none, none⟩
          ⟨expected_tables, []⟩ ⟨[]⟩ ⟨⟨"delete", false, "FULL", 0⟩, ⟨[], []⟩⟩).1
        (bootstrapSpec ⟨["data", "lit.db"], true, none, none⟩
          ⟨expected_tables, []⟩ ⟨[]⟩ ⟨⟨"delete", false, "FULL", 0⟩, ⟨[], []⟩⟩).2) =
      bootstrapSpec ⟨["data", "lit.db"], true, none, none⟩
        ⟨expected_tables, []⟩ ⟨[]⟩ ⟨⟨"delete", false, "FULL", 0⟩, ⟨[], []⟩⟩) ∧
    ((bootstrapSpec ⟨["data", "lit.db"], true, none, none⟩
        ⟨expected_tables, []⟩ ⟨[]⟩
        ⟨⟨"delete", false, "FULL", 0⟩, ⟨[], []⟩⟩).2.config.journal_mode =
      "wal") := by
  constructor
  · exact (C8_bootstrap_idempotent ⟨["data", "lit.db"], true, none, none⟩
      ⟨expected_tables, []⟩ ⟨[]⟩ ⟨⟨"delete", false, "FULL", 0⟩, ⟨[], []⟩⟩).1
  · exact (C8_bootstrap_idempotent ⟨["data", "lit.db"], true, none, none⟩
      ⟨expected_tables, []⟩ ⟨[]⟩
      ⟨⟨"delete", false, "FULL", 0⟩, ⟨[], []⟩⟩).2.2.2.2.1 rfl

/-- C5: the validation report is valid exactly when no expected table or
index is missing and the FTS artifact is present; on a freshly bootstrapped
catalog it is valid with no issues; after dropping one expected table it is
invalid and that table is named in the issues. -/
theorem C5_validate_schema (d : SchemaDescriptor) :
    (∀ cat : Catalog, (validate_schema d cat).valid = true ↔
      ((∀ t ∈ d.tables, t ∈ cat.tables) ∧
        (∀ i ∈ d.indexes, i ∈ cat.indexes) ∧ ftsTable ∈ cat.tables)) ∧
    ((validate_schema d (runSchemaScript d ⟨[], []⟩)).valid = true ∧
      (validate_schema d (runSchemaScript d ⟨[], []⟩)).issues = []) ∧
    (∀ t ∈ d.tables,
      (validate_schema d
        ((runSchemaScript d ⟨[], []⟩).dropTable t)).valid = false ∧
      ("Missing table: " ++ t) ∈
        (validate_schema d
          ((runSchemaScript d ⟨[], []⟩).dropTable t)).issues) := by
  have hfreshT : ∀ t ∈ d.tables, t ∈ (runSchemaScript d ⟨[], []⟩).tables :=
    fun t ht => mem_addNew_of_mem (mem_foldl_addNew_of_mem_list ht)
  have hfreshI : ∀ i ∈ d.indexes, i ∈ (runSchemaScript d ⟨[], []⟩).indexes :=
    fun i hi => mem_foldl_addNew_of_mem_list hi
  have hfts : ftsTable ∈ (runSchemaScript d ⟨[], []⟩).tables :=
    self_mem_addNew _ _
  have hnodup : (runSchemaScript d ⟨[], []⟩).tables.Nodup :=
    nodup_addNew (nodup_foldl_addNew d.tables List.nodup_nil) ftsTable
  refine ⟨?_, ?_, ?_⟩
  · intro cat
    by_cases hf : ftsTable ∈ cat.tables <;>
      simp [validate_schema, hf, List.isEmpty_iff, List.filter_eq_nil_iff]
  · have hiss : (validate_schema d (runSchemaScript d ⟨[], []⟩)).issues = [] := by
      simp [validate_schema, hfts, List.filter_eq_nil_iff]
      exact ⟨hfreshT, hfreshI⟩
    constructor
    · show (validate_schema d (runSchemaScript d ⟨[], []⟩)).issues.isEmpty = true
      rw [hiss]
      rfl
    · exact hiss
  · intro t ht
    have hgone : t ∉ ((runSchemaScript d ⟨[], []⟩).dropTable t).tables :=
      hnodup.not_mem_erase
    have hmiss : ("Missing table: " ++ t) ∈
        (validate_schema d ((runSchemaScript d ⟨[], []⟩).dropTable t)).issues := by
      refine List.mem_append_left _ (List.mem_append_left _ ?_)
      exact List.mem_map_of_mem _ (List.mem_filter.mpr ⟨ht, by simp [hgone]⟩)
    refine ⟨?_, hmiss⟩
    show (validate_schema d
      ((runSchemaScript d ⟨[], []⟩).dropTable t)).issues.isEmpty = false
    exact isEmpty_false_of_mem hmiss

/-- Witness for C5: with the expected tables of the source and one expected
index, a fresh bootstrap validates cleanly, and dropping the authors table
invalidates the report and names the authors table. -/
theorem C5_validate_schema_witness :
    ((validate_schema ⟨expected_tables, ["idx_papers_year"]⟩
        (runSchemaScript ⟨expected_tables, ["idx_papers_year"]⟩
          ⟨[], []⟩)).valid = true) ∧
    ((validate_schema ⟨expected_tables, ["idx_papers_year"]⟩
        ((runSchemaScript ⟨expected_tables, ["idx_papers_year"]⟩
          ⟨[], []⟩).dropTable "authors")).valid = false) ∧
    ("Missing table: " ++ "authors") ∈
      (validate_schema ⟨expected_tables, ["idx_papers_year"]⟩
        ((runSchemaScript ⟨expected_tables, ["idx_papers_year"]⟩
          ⟨[], []⟩).dropTable "authors")).issues := by
  have h := C5_validate_schema ⟨expected_tables, ["idx_papers_year"]⟩
  have ha : "authors" ∈ (⟨expected_tables, ["idx_papers_year"]⟩ :
      SchemaDescriptor).tables := by
    simp [expected_tables]
  exact ⟨h.2.1.1, (h.2.2 "authors" ha).1, (h.2.2 "authors" ha).2⟩

/-- C6: two monitored executions with the same query text but different
parameter values accumulate into a single QueryStat entry keyed by the
fingerprint of the query text, with both executions counted. -/
theorem C6_shared_fingerprint_stats
    (exec : String → List Param → Store → Except String (List Row))
    (q : String) (p1 p2 : List Param) (s : Store) (dt1 dt2 : Nat)
    (rows1 rows2 : List Row) (h1 : exec q p1 s = .ok rows1)
    (h2 : exec q p2 s = .ok rows2) :
    ((execute_with_monitoring exec
        (execute_with_monitoring exec emptyMonitor q p1 s dt1).2.1
        q p2 s dt2).2.1).query_stats =
      [(fingerprint q, ⟨2, dt1 + dt2⟩)] := by
  simp [execute_with_monitoring, h1, h2, emptyMonitor, bumpStat, fingerprint]

/-- Witness for C6: a constant executor run twice with different bound
parameters yields one stats entry counting two executions. -/
theorem C6_shared_fingerprint_stats_witness :
    ((execute_with_monitoring (fun _ _ _ => .ok [])
        (execute_with_monitoring (fun _ _ _ => .ok []) emptyMonitor
          "SELECT * FROM papers WHERE year = ?" [.intP 2020] ⟨[]⟩ 3).2.1
        "SELECT * FROM papers WHERE year = ?" [.intP 2021] ⟨[]⟩ 4).2.1).query_stats =
      [(fingerprint "SELECT * FROM papers WHERE year = ?", ⟨2, 3 + 4⟩)] :=
  C6_shared_fingerprint_stats (fun _ _ _ => .ok [])
    "SELECT * FROM papers WHERE year = ?" [.intP 2020] [.intP 2021]
    ⟨[]⟩ 3 4 [] [] rfl rfl

/-- C7: a failing monitored execution logs the query text, the parameter
shapes and the error kind, re-raises the failure wrapped in
QueryExecutionError, and never turns it into a default or empty result. -/
theorem C7_failure_logged_and_reraised
    (exec : String → List Param → Store → Except String (List Row))
    (mon : QueryPerformanceMonitor) (q : String) (params : List Param)
    (s : Store) (dt : Nat) (e : String) (he : exec q params s = .error e) :
    ((execute_with_monitoring exec mon q params s dt).1 =
      .error ⟨fingerprint q, e⟩) ∧
    ((execute_with_monitoring exec mon q params s dt).2.2 =
      [⟨q, params.map Param.shape, e⟩]) ∧
    (∀ rows : List Row,
      (execute_with_monitoring exec mon q params s dt).1 ≠ .ok rows) := by
  refine ⟨?_, ?_, ?_⟩ <;> simp [execute_with_monitoring, he]

/-- Witness for C7: a constraint-violation failure is re-raised as a
QueryExecutionError carrying the fingerprint and cause, with one log entry
recording the query, the parameter shapes and the error kind. -/
theorem C7_failure_logged_and_reraised_witness :
    ((execute_with_monitoring (fun _ _ _ => .error "constraint violation")
        emptyMonitor "INSERT INTO authors VALUES (?, ?)"
        [.intP 1, .textP "ada"] ⟨[]⟩ 2).1 =
      .error ⟨fingerprint "INSERT INTO authors VALUES (?, ?)",
        "constraint violation"⟩) ∧
    ((execute_with_monitoring (fun _ _ _ => .error "constraint violation")
        emptyMonitor "INSERT INTO authors VALUES (?, ?)"
        [.intP 1, .textP "ada"] ⟨[]⟩ 2).2.2 =
      [⟨"INSERT INTO authors VALUES (?, ?)", ["int", "text"],
        "constraint violation"⟩]) := by
  have h := C7_failure_logged_and_reraised
    (fun _ _ _ => .error "constraint violation") emptyMonitor
    "INSERT INTO authors VALUES (?, ?)" [.intP 1, .textP "ada"] ⟨[]⟩ 2
    "constraint violation" rfl
  exact ⟨h.1, h.2.1⟩

end SLI

